import Mathlib

/-!
Shallow embedding of the experimental type-inference pass in
`src/libsolidity/analysis/experimental/TypeInference.cpp`, together with
theorems settling the frozen claims about it.  Every definition is translated
from that source file; the few collaborator helpers that live outside `src/`
(`TypeSystemHelpers`, the numeric-precision bound) are modelled from the spec
and say so in their doc comments.
-/

namespace TypeInference

/-! ## Type representation (component A)

`Type` in the source is a variant of a type variable and a `TypeConstant`
(constructor applied to arguments).  Constructors are opaque identities; the
built-in ones (`PrimitiveType::Function`, `::Void`, `::Word`, ...) are
distinguished values. -/

/-- A type constructor identity: one of the built-in primitive constructors or
a user-declared one (keyed by its declaration). -/
inductive TypeConstructorRef where
  | function
  | typeFunction
  | tuple
  | unit
  | void
  | word
  | integer
  | bool
  | user (decl : Nat)
deriving DecidableEq

/-- The algebraic type representation: a unification variable (stable integer
identity) or a constructor applied to an argument list (`TypeConstant`). -/
inductive Ty where
  | tvar (id : Nat)
  | constant (ctor : TypeConstructorRef) (args : List Ty)

/-- A sort: the set of type classes a variable is constrained by.  Type-class
identities are opaque integers here. -/
structure TSort where
  classes : List Nat
deriving DecidableEq

/-- Type class identities (opaque, as in the source's `TypeClass`). -/
abbrev TypeClassId := Nat

/-- Identity of a `TypeClassInstantiation` AST node (the source holds
pointers; we use stable integers). -/
abbrev InstantiationId := Nat

/-- Modelled from the spec: `TypeSystemHelpers::functionType` builds the
built-in function shape `fn(argTuple -> result)` as the `function` constructor
applied to argument and result. -/
def functionType (a b : Ty) : Ty := .constant .function [a, b]

/-- Modelled from the spec: the type-function shape used in type context to
describe constructor applications. -/
def typeFunctionType (a b : Ty) : Ty := .constant .typeFunction [a, b]

/-- Modelled from the spec: the canonical tuple shape; a 0-tuple is the unit
type and a 1-tuple is not identified with its element. -/
def tupleType (ts : List Ty) : Ty :=
  match ts with
  | [] => .constant .unit []
  | _ => .constant .tuple ts

/-- `m_voidType` (TypeInference.cpp line 47). -/
def voidType : Ty := .constant .void []

/-- `m_wordType` (TypeInference.cpp line 48). -/
def wordType : Ty := .constant .word []

/-- `TypeSystemHelpers::isTypeConstant`: whether a type is a constructor
application (as opposed to a variable). -/
def isTypeConstant : Ty → Bool
  | .constant _ _ => true
  | .tvar _ => false

/-- Whether a type is a unification variable. -/
def isTypeVariable : Ty → Bool
  | .tvar _ => true
  | .constant _ _ => false

/-! ## Diagnostics

Every `typeError` / `fatalTypeError` call site of TypeInference.cpp, with its
fatality.  `fatalTypeError` throws and never returns; `typeError` records the
diagnostic and control continues. -/

/-- The diagnostic sites of TypeInference.cpp, one constructor per
`m_errorReporter.typeError` / `fatalTypeError` call. -/
inductive Diag where
  /-- line 208: "Elementary type name expression only supported in type context." -/
  | elementaryTypeNameOutsideTypeContext
  /-- line 233: "No type constructor registered for elementary type name." -/
  | noConstructorForElementaryTypeName
  /-- line 266: "Binary operation in term context not yet supported." -/
  | binaryOperationInTermContext
  /-- line 290: "Invalid binary operations in type context." -/
  | invalidBinaryOperationInTypeContext
  /-- line 295: "Invalid binary operation in sort context." -/
  | invalidBinaryOperationInSortContext
  /-- line 307: "Multi variable declaration not supported." -/
  | multiVariableDeclaration
  /-- line 343: "Variable declaration in sort context." -/
  | variableDeclarationInSortContext
  /-- line 357: "Assignment outside term context." -/
  | assignmentOutsideTermContext
  /-- line 438: "Unregistered type class." -/
  | unregisteredTypeClass
  /-- line 445: "Expected type class." (identifier in sort context) -/
  | expectedTypeClassInSortContext
  /-- line 546: "Expected type class." (type class instantiation) -/
  | expectedTypeClassInstantiation
  /-- line 554: "Invalid type class name." -/
  | invalidTypeClassName
  /-- line 565: "Invalid type constructor." -/
  | invalidTypeConstructor
  /-- line 599: "Duplicate definition of function ... during type class instantiation." -/
  | duplicateInstantiationFunction
  /-- line 603: the error string returned by `instantiateClass`. -/
  | instantiateClassError
  /-- line 612: "Member access outside term context." -/
  | memberAccessOutsideTermContext
  /-- line 635: "Member not found." -/
  | memberNotFound
  /-- line 641: "Unsupported member access expression." -/
  | unsupportedMemberAccessExpression
  /-- line 704: "Function call in sort context." -/
  | functionCallInSortContext
  /-- line 892: "Only number literals are supported." -/
  | onlyNumberLiteralsSupported
  /-- line 898: "Invalid number literals." -/
  | invalidNumberLiteral
  /-- line 903: "Only integers are supported." -/
  | onlyIntegersSupported
  /-- line 954: "Recursion during type class instantiation." -/
  | recursionDuringInstantiation
  /-- line 991: "Cannot unify ... and ..." (TypeMismatch report) -/
  | cannotUnify
  /-- line 1001: "... does not have sort ..." (SortMismatch report) -/
  | sortMismatchReport
  /-- line 1008: "Recursive unification: ... occurs in ..." -/
  | recursiveUnificationReport
  /-- line 135, fatal: "Function in type class may only depend on the type class variable." -/
  | classFunctionDependsOnMoreThanClassVariable
  /-- line 139, fatal: "Function in type class declared multiple times." -/
  | classFunctionDeclaredMultipleTimes
  /-- line 145, fatal: the error string returned by `declareTypeClass`. -/
  | typeClassDeclarationError
  /-- line 382, fatal: "Attempt to type identifier referring to unexpected node." (term context) -/
  | unexpectedReferentTerm
  /-- line 412, fatal: "Attempt to type identifier referring to unexpected node." (type context) -/
  | unexpectedReferentType
  /-- line 1031, fatal: "Unregistered type." -/
  | unregisteredType
  /-- line 1041, fatal: "Unsupported AST node during type inference." -/
  | unsupportedASTNode
deriving DecidableEq

/-- Whether the diagnostic site calls `fatalTypeError` (which throws and
aborts the pass) rather than `typeError` (which records and returns). -/
def isFatal : Diag → Bool
  | .classFunctionDependsOnMoreThanClassVariable => true
  | .classFunctionDeclaredMultipleTimes => true
  | .typeClassDeclarationError => true
  | .unexpectedReferentTerm => true
  | .unexpectedReferentType => true
  | .unregisteredType => true
  | .unsupportedASTNode => true
  | _ => false

/-- The fixed message of a diagnostic site, when the source passes a string
literal (sites that format dynamic data map to `none`). -/
def staticMessage : Diag → Option String
  | .elementaryTypeNameOutsideTypeContext => some "Elementary type name expression only supported in type context."
  | .noConstructorForElementaryTypeName => some "No type constructor registered for elementary type name."
  | .binaryOperationInTermContext => some "Binary operation in term context not yet supported."
  | .invalidBinaryOperationInTypeContext => some "Invalid binary operations in type context."
  | .invalidBinaryOperationInSortContext => some "Invalid binary operation in sort context."
  | .multiVariableDeclaration => some "Multi variable declaration not supported."
  | .variableDeclarationInSortContext => some "Variable declaration in sort context."
  | .assignmentOutsideTermContext => some "Assignment outside term context."
  | .unregisteredTypeClass => some "Unregistered type class."
  | .expectedTypeClassInSortContext => some "Expected type class."
  | .expectedTypeClassInstantiation => some "Expected type class."
  | .invalidTypeClassName => some "Invalid type class name."
  | .invalidTypeConstructor => some "Invalid type constructor."
  | .duplicateInstantiationFunction => none
  | .instantiateClassError => none
  | .memberAccessOutsideTermContext => some "Member access outside term context."
  | .memberNotFound => some "Member not found."
  | .unsupportedMemberAccessExpression => some "Unsupported member access expression."
  | .functionCallInSortContext => some "Function call in sort context."
  | .onlyNumberLiteralsSupported => some "Only number literals are supported."
  | .invalidNumberLiteral => some "Invalid number literals."
  | .onlyIntegersSupported => some "Only integers are supported."
  | .recursionDuringInstantiation => some "Recursion during type class instantiation."
  | .cannotUnify => none
  | .sortMismatchReport => none
  | .recursiveUnificationReport => none
  | .classFunctionDependsOnMoreThanClassVariable => some "Function in type class may only depend on the type class variable."
  | .classFunctionDeclaredMultipleTimes => some "Function in type class declared multiple times."
  | .typeClassDeclarationError => none
  | .unexpectedReferentTerm => some "Attempt to type identifier referring to unexpected node."
  | .unexpectedReferentType => some "Attempt to type identifier referring to unexpected node."
  | .unregisteredType => some "Unregistered type."
  | .unsupportedASTNode => some "Unsupported AST node during type inference."

/-- The expression context threaded through the walker. -/
inductive ExpressionContext where
  | term
  | type
  | sort
deriving DecidableEq

/-! ## The unification driver (`TypeInference::unify`, lines 926-1019)

`TypeEnvironment::unify` returns a list of failures.  When the
active-instantiations set is non-empty the driver scans the failures: if every
failure is a `SortMismatch` on a type constant each of whose required classes
has a known instantiation for that constructor, the batch is treated as
pending; an instantiation already active means recursion (reported with all
active instantiations as secondary locations, batch abandoned), otherwise the
missing instantiations are visited and the unification re-run once, the second
result being reported. -/

/-- A failure returned by `TypeEnvironment::unify`. -/
inductive UFail where
  | typeMismatch (a b : Ty)
  | sortMismatch (t : Ty) (s : TSort)
  | recursiveUnification (v t : Ty)

/-- Result of the scanning lambda `onlyMissingInstantiations` (lines 938-973):
`recursionDetected` models the path that reports recursion and sets
`recursion = true`; `bail` models `return false` without recursion;
`collected` models `return true` with the accumulated
`missingInstantiations`. -/
inductive InnerScan where
  | recursionDetected
  | bail
  | collected (missing : List InstantiationId)

/-- The inner loop over a sort mismatch's classes (lines 945-967): each class
is looked up in the instantiation table for the mismatching constructor; a
missing entry bails out, an active instantiation is recursion, otherwise the
instantiation is appended to the missing list. -/
def scanSortClasses (insts : TypeClassId → TypeConstructorRef → Option InstantiationId)
    (active : List InstantiationId) (ctor : TypeConstructorRef) :
    List TypeClassId → List InstantiationId → InnerScan
  | [], acc => .collected acc
  | c :: cs, acc =>
    match insts c ctor with
    | some i =>
      if i ∈ active then .recursionDetected
      else scanSortClasses insts active ctor cs (acc ++ [i])
    | none => .bail

/-- The outer loop over the unification failures (lines 939-972): only a
`SortMismatch` whose type is a type constant continues the scan; anything else
is `return false`. -/
def scanFailures (insts : TypeClassId → TypeConstructorRef → Option InstantiationId)
    (active : List InstantiationId) :
    List UFail → List InstantiationId → InnerScan
  | [], acc => .collected acc
  | f :: fs, acc =>
    match f with
    | .sortMismatch (.constant ctor _) s =>
      match scanSortClasses insts active ctor s.classes acc with
      | .collected acc2 => scanFailures insts active fs acc2
      | .recursionDetected => .recursionDetected
      | .bail => .bail
    | _ => .bail

/-- Observable actions of `TypeInference::unify`: visiting an instantiation
node, reporting the recursion diagnostic (with its secondary locations), or
reporting one unification failure. -/
inductive UEvent where
  | visitInstantiation (i : InstantiationId)
  | reportRecursion (ssl : List InstantiationId)
  | report (f : UFail)

/-- The driver logic of `TypeInference::unify` (lines 926-1019), with the
first and second `_env->unify(_a, _b)` results as parameters: with an empty
active set the first failures are reported verbatim; otherwise the scan either
detects recursion (one diagnostic carrying every active instantiation, then
return), bails (first failures reported verbatim), or yields the missing
instantiations, which are visited before the re-run whose failures are then
reported. -/
def unifyDriver (insts : TypeClassId → TypeConstructorRef → Option InstantiationId)
    (active : List InstantiationId) (first second : List UFail) : List UEvent :=
  if active = [] then first.map .report
  else
    match scanFailures insts active first [] with
    | .recursionDetected => [.reportRecursion active]
    | .bail => first.map .report
    | .collected missing =>
      missing.map .visitInstantiation ++ second.map .report

/-- Whether a failure is a sort mismatch on a type constant all of whose
required classes have a known instantiation for that constructor (the
condition under which the scan does not bail on it). -/
def qualifiesB (insts : TypeClassId → TypeConstructorRef → Option InstantiationId) :
    UFail → Bool
  | .sortMismatch (.constant ctor _) s =>
    s.classes.all (fun c => (insts c ctor).isSome)
  | _ => false

/-- Whether some required class of the failure has an instantiation that is
already in the active set. -/
def hitsActiveB (insts : TypeClassId → TypeConstructorRef → Option InstantiationId)
    (active : List InstantiationId) : UFail → Bool
  | .sortMismatch (.constant ctor _) s =>
    s.classes.any (fun c =>
      match insts c ctor with
      | some i => decide (i ∈ active)
      | none => false)
  | _ => false

/-- The instantiations a single failure contributes to the missing list. -/
def missingOf (insts : TypeClassId → TypeConstructorRef → Option InstantiationId) :
    UFail → List InstantiationId
  | .sortMismatch (.constant ctor _) s => s.classes.filterMap (fun c => insts c ctor)
  | _ => []

/-- All instantiations the failures contribute, in scan order. -/
def collectMissing (insts : TypeClassId → TypeConstructorRef → Option InstantiationId)
    (fs : List UFail) : List InstantiationId :=
  fs.flatMap (missingOf insts)

/-! ## Re-visit behaviour of the annotating visits (claim C2)

For each visit that manages a node's `type` annotation, the effect of running
it when the annotation may already be present.  The result is `none` when a
`solAssert` on the annotation fires (internal compiler error, pass aborted)
and `some a` when the visit completes leaving annotation `a`.  `computed` is
the type the non-guarded body would store. -/

/-- `visit(FunctionDefinition)` lines 61-87: early-returns if the annotation
is present, otherwise stores the computed function type. -/
def functionDefinitionVisitType (existing : Option Ty) (computed : Ty) : Option (Option Ty) :=
  match existing with
  | some t => some (some t)
  | none => some (some computed)

/-- `endVisit(ParameterList)` lines 99-106: `solAssert(!listAnnotation.type)`,
then stores the tuple of the children's types. -/
def parameterListEndVisitType (existing : Option Ty) (computed : Ty) : Option (Option Ty) :=
  match existing with
  | some _ => none
  | none => some (some computed)

/-- `visit(TypeClassDefinition)` lines 108-113: early-returns if the
annotation is present. -/
def typeClassDefinitionVisitType (existing : Option Ty) (computed : Ty) : Option (Option Ty) :=
  match existing with
  | some t => some (some t)
  | none => some (some computed)

/-- `visit(ElementaryTypeNameExpression)` lines 201-204:
`solAssert(!expressionAnnotation.type)`. -/
def elementaryTypeNameVisitType (existing : Option Ty) (computed : Ty) : Option (Option Ty) :=
  match existing with
  | some _ => none
  | none => some (some computed)

/-- `visit(BinaryOperation)` lines 239-242: `solAssert(!operationAnnotation.type)`. -/
def binaryOperationVisitType (existing : Option Ty) (computed : Ty) : Option (Option Ty) :=
  match existing with
  | some _ => none
  | none => some (some computed)

/-- `visit(VariableDeclaration)` lines 315-319: `solAssert(!variableAnnotation.type)`. -/
def variableDeclarationVisitType (existing : Option Ty) (computed : Ty) : Option (Option Ty) :=
  match existing with
  | some _ => none
  | none => some (some computed)

/-- `endVisit(Assignment)` lines 350-353: `solAssert(!assignmentAnnotation.type)`. -/
def assignmentEndVisitType (existing : Option Ty) (computed : Ty) : Option (Option Ty) :=
  match existing with
  | some _ => none
  | none => some (some computed)

/-- `visit(Identifier)` lines 454-457: `solAssert(!identifierAnnotation.type)`. -/
def identifierVisitType (existing : Option Ty) (computed : Ty) : Option (Option Ty) :=
  match existing with
  | some _ => none
  | none => some (some computed)

/-- `endVisit(TupleExpression)` lines 484-487: `solAssert(!expressionAnnotation.type)`. -/
def tupleExpressionVisitType (existing : Option Ty) (computed : Ty) : Option (Option Ty) :=
  match existing with
  | some _ => none
  | none => some (some computed)

/-- `visit(IdentifierPath)` lines 512-515: `solAssert(!identifierAnnotation.type)`. -/
def identifierPathVisitType (existing : Option Ty) (computed : Ty) : Option (Option Ty) :=
  match existing with
  | some _ => none
  | none => some (some computed)

/-- `visit(TypeClassInstantiation)` lines 527-534: early-returns if the
annotation is present (after transiently entering the active set), otherwise
stores the void type before any further processing. -/
def typeClassInstantiationVisitType (existing : Option Ty) (computed : Ty) : Option (Option Ty) :=
  match existing with
  | some t => some (some t)
  | none => some (some computed)

/-- `endVisit(MemberAccess)` lines 619-622: `solAssert(!memberAccessAnnotation.type)`. -/
def memberAccessEndVisitType (existing : Option Ty) (computed : Ty) : Option (Option Ty) :=
  match existing with
  | some _ => none
  | none => some (some computed)

/-- `visit(MemberAccess)` lines 608-617 outside term context: reports an error
and stores a fresh type variable without examining the previous annotation. -/
def memberAccessVisitNonTermType (_existing : Option Ty) (freshVar : Ty) : Option (Option Ty) :=
  some (some freshVar)

/-- `visit(TypeDefinition)` lines 646-651: early-returns if the annotation is
present. -/
def typeDefinitionVisitType (existing : Option Ty) (computed : Ty) : Option (Option Ty) :=
  match existing with
  | some t => some (some t)
  | none => some (some computed)

/-- `endVisit(FunctionCall)` lines 686-689: `solAssert(!functionCallAnnotation.type)`. -/
def functionCallEndVisitType (existing : Option Ty) (computed : Ty) : Option (Option Ty) :=
  match existing with
  | some _ => none
  | none => some (some computed)

/-- `visit(Literal)` lines 887-908: no guard on the previous annotation; on an
accepted literal the fresh Integer-sorted variable is stored (overwriting any
previous annotation), on a rejected literal the visit returns leaving the
previous annotation in place.  `computed` is `some` of the fresh variable when
the literal is accepted and `none` when it is rejected. -/
def literalVisitTypeEffect (existing : Option Ty) (computed : Option Ty) : Option (Option Ty) :=
  match computed with
  | some t => some (some t)
  | none => some existing

/-! ## Numeric literal parsing (lines 732-908)

Rational values are Mathlib's `Rat` (boost's `rational` is likewise kept
normalised with a positive denominator).  The core arithmetic on `Rat` is
kernel-irreducible, so the model computes through `mkRat`; the bridging lemmas
`ratAdd_eq`, `ratMul_eq` and `ratDivNat_eq` below identify these operations
with `+`, `*` and `/`. -/

/-- Rational addition, computed through `mkRat` (provably equal to `+`). -/
def ratAdd (a b : Rat) : Rat := mkRat (a.num * b.den + b.num * a.den) (a.den * b.den)

/-- Rational multiplication, computed through `mkRat` (provably equal to `*`). -/
def ratMul (a b : Rat) : Rat := mkRat (a.num * b.num) (a.den * b.den)

/-- Division of a rational by a natural number, computed through `mkRat`
(provably equal to `/` for a non-zero divisor). -/
def ratDivNat (a : Rat) (p : Nat) : Rat := mkRat a.num (a.den * p)

/-- `util::isDigit`: ASCII decimal digit (code points 48-57). -/
def charIsDigit (c : Char) : Bool := 48 ≤ c.toNat && c.toNat ≤ 57

/-- Value of a decimal digit. -/
def digitVal? (c : Char) : Option Nat :=
  if charIsDigit c then some (c.toNat - 48) else none

/-- Value of a hexadecimal digit (0-9, a-f with code points 97-102, A-F with
code points 65-70). -/
def hexVal? (c : Char) : Option Nat :=
  if charIsDigit c then some (c.toNat - 48)
  else if 97 ≤ c.toNat && c.toNat ≤ 102 then some (c.toNat - 87)
  else if 65 ≤ c.toNat && c.toNat ≤ 70 then some (c.toNat - 55)
  else none

/-- Value of an octal digit (code points 48-55). -/
def octVal? (c : Char) : Option Nat :=
  if 48 ≤ c.toNat && c.toNat ≤ 55 then some (c.toNat - 48) else none

/-- Accumulate digits in the given base; any invalid character makes the
parse fail. -/
def parseDigits (val? : Char → Option Nat) (base : Nat) (cs : List Char) : Option Nat :=
  cs.foldl
    (fun acc c =>
      match acc, val? c with
      | some a, some d => some (a * base + d)
      | _, _ => none)
    (some 0)

/-- The semantics of boost's `bigint` (`cpp_int`) construction from a string,
as used by `parseRational` and `rationalValue`: the result starts at 0, an
optional leading minus sign and a radix prefix are stripped (`0x`/`0X` selects
hexadecimal, a remaining leading `0` selects octal, otherwise decimal), and
digits are then processed only if any remain — so an empty digit sequence
yields 0 (this is what lets `parseRational` accept `1.`, `.5` and `1.0`);
an invalid digit throws (modelled as `none`). -/
def bigintOfChars (cs : List Char) : Option Int :=
  let signSplit : Bool × List Char :=
    match cs with
    | '-' :: r => (true, r)
    | _ => (false, cs)
  let mag? : Option Nat :=
    match signSplit.2 with
    | [] => some 0
    | '0' :: r =>
      match r with
      | [] => some 0
      | x :: r2 =>
        if x = 'x' ∨ x = 'X' then parseDigits hexVal? 16 r2
        else parseDigits octVal? 8 r
    | _ => parseDigits digitVal? 10 signSplit.2
  mag?.map (fun m => if signSplit.1 then -(m : Int) else (m : Int))

/-- `std::find` over characters, returning the index of the first occurrence. -/
def findCharIdx (c : Char) : List Char → Option Nat
  | [] => none
  | x :: xs => if x = c then some 0 else (findCharIdx c xs).map (· + 1)

/-- `parseRational` (lines 736-777): with a radix point, both sides must be
all digits; the fractional part has its leading zeros skipped (a leading zero
would make boost's `bigint` parse octal; an all-zero or empty fractional part
becomes `bigint("")`, i.e. 0) before being divided by ten to the number of
fractional digits, and is added to the integer part (an empty integer part is
likewise `bigint("")`, i.e. 0, so `.5` parses to 1/2); without a radix point
the whole string is one `bigint`. -/
def parseRationalChars (cs : List Char) : Option Rat :=
  match findCharIdx '.' cs with
  | none => (bigintOfChars cs).map (fun n => (n : Rat))
  | some i =>
    let before := cs.take i
    let after := cs.drop (i + 1)
    if after.all charIsDigit && before.all charIsDigit then
      let fracBegin := after.dropWhile (· = '0')
      match bigintOfChars fracBegin with
      | none => none
      | some d =>
        let denom : Rat := ratDivNat ((d : Rat)) (10 ^ after.length)
        match bigintOfChars before with
        | none => none
        | some n => some (ratAdd ((n : Rat)) denom)
    else none

/-- Modelled from the spec: `fitsPrecisionBase10` (declared at lines 779-784,
implemented in `libsolutil/Numeric.h`, outside `src/`) enforces a 4096-bit
precision bound on `mantissa * 10 ^ exp`.  The bound is written as a numeral
so that the kernel can evaluate it; `fitsPrecisionBase10_bound` below checks
that the numeral is `2 ^ 4096`. -/
def fitsPrecisionBase10 (mantissa : Nat) (expBase10 : Nat) : Bool :=
  mantissa * 10 ^ expBase10 < 1044388881413152506691752710716624382579964249047383780384233483283953907971557456848826811934997558340890106714439262837987573438185793607263236087851365277945956976543709998340361590134383718314428070011855946226376318839397712745672334684344586617496807908705803704071284048740118609114467977783598029006686938976881787785946905630190260940599579453432823469303026696443059025015972399867714215541693835559885291486318237914434496734087811872639496475100189041349008417061675093668333850551032972088269550769983616369411933015213796825837188091833656751221318492846368125550225998300412344784862595674492194617023806505913245610825731835380087608622102834270197698202313169017678006675195485079921636419370285375124784014907159135459982790513399611551794271106831134090584272884279791554849782954323534517065223269061394905987693002122963395687782878948440616007412945674919823050571642377154816321380631045902916136926708342856440730447899971901781465763473223850267253059899795996090799469201774624817718449867455659250178329070473119433165550807568221846571746373296884912819520317457002440926616910874148385078411929804522981857338977648103126085903001302413467189726673216491511131602920781738033436090243804708340403154190336

/-- The exponent marker search of `rationalValue` (lines 793-795): the first
`e`, and only if there is none, the first `E`. -/
def expPointIdx (cs : List Char) : Option Nat :=
  match findCharIdx 'e' cs with
  | some i => some i
  | none => findCharIdx 'E' cs

/-- `boost::starts_with(valueString, "0x")` (line 797): lowercase only. -/
def startsWith0x : List Char → Bool
  | '0' :: 'x' :: _ => true
  | _ => false

/-- The scientific-notation branch of `rationalValue` (lines 802-840): parse
the mantissa; a zero mantissa is rejected before the exponent is examined;
the exponent must be a valid `bigint` within the signed 32-bit window; the
precision bound is checked on the denominator (negative exponent) or numerator
(positive exponent) before scaling. -/
def scientificValue (mantChars expChars : List Char) : Option Rat :=
  match parseRationalChars mantChars with
  | none => none
  | some m =>
    if m = 0 then none
    else
      match bigintOfChars expChars with
      | none => none
      | some e =>
        if e > 2147483647 ∨ e < -2147483648 then none
        else if e < 0 then
          if fitsPrecisionBase10 m.den e.natAbs then some (ratDivNat m (10 ^ e.natAbs))
          else none
        else if e > 0 then
          if fitsPrecisionBase10 m.num.natAbs e.natAbs then
            some (ratMul m (((10 : Int) ^ e.natAbs : Int) : Rat))
          else none
        else some m

/-- The parsing part of `rationalValue` (lines 786-852, the `try` block): hex
strings go to `bigint` directly; otherwise the presence of an exponent marker
selects the scientific branch, else plain `parseRational`. -/
def rationalValueChars (cs : List Char) : Option Rat :=
  if startsWith0x cs then (bigintOfChars cs).map (fun n => (n : Rat))
  else
    match expPointIdx cs with
    | some i => scientificValue (cs.take i) (cs.drop (i + 1))
    | none => parseRationalChars cs

/-- `Literal::SubDenomination`. -/
inductive SubDenomination where
  | none
  | wei
  | gwei
  | ether
  | second
  | minute
  | hour
  | day
  | week
  | year
deriving DecidableEq

/-- The sub-denomination switch of `rationalValue` (lines 854-881): `None`,
`Wei` and `Second` leave the value unchanged; the others multiply by the fixed
constant. -/
def applySubDenomination (v : Rat) : SubDenomination → Rat
  | .none => v
  | .wei => v
  | .second => v
  | .gwei => ratMul v ((1000000000 : Int) : Rat)
  | .ether => ratMul v ((1000000000000000000 : Int) : Rat)
  | .minute => ratMul v ((60 : Int) : Rat)
  | .hour => ratMul v ((3600 : Int) : Rat)
  | .day => ratMul v ((86400 : Int) : Rat)
  | .week => ratMul v ((604800 : Int) : Rat)
  | .year => ratMul v ((31536000 : Int) : Rat)

/-- `Literal::valueWithoutUnderscores`: the literal text with underscores
removed. -/
def withoutUnderscores (s : String) : List Char := s.toList.filter (· ≠ '_')

/-- `rationalValue(Literal)` (lines 786-884): parse the underscore-stripped
literal text and apply the sub-denomination. -/
def rationalValue (value : String) (sub : SubDenomination) : Option Rat :=
  (rationalValueChars (withoutUnderscores value)).map (fun v => applySubDenomination v sub)

/-- The token of a literal (only `Token::Number` is accepted). -/
inductive Token where
  | number
  | stringLiteral
  | trueLiteral
  | falseLiteral
  | other
deriving DecidableEq

/-- Result of `visit(Literal)` (lines 887-908): the diagnostics reported and
the `type` annotation ultimately stored.  A stored annotation is a fresh type
variable carrying the given sort (`typeAnnotSort`); the three reject paths
return without touching the annotation. -/
structure LiteralVisitOutcome where
  diagnostics : List Diag
  typeAnnotSort : Option (List TypeClassId)
deriving DecidableEq

/-- `visit(Literal)` (lines 887-908).  `integerClass` is the class registered
for `BuiltinClass::Integer` by the registration pass (looked up at line 906):
non-number tokens are rejected, then an unparsable value, then a value whose
denominator is not 1; otherwise the annotation is a fresh variable of sort
containing exactly the Integer class. -/
def visitLiteral (integerClass : TypeClassId) (tok : Token) (value : String)
    (sub : SubDenomination) : LiteralVisitOutcome :=
  if tok ≠ .number then { diagnostics := [.onlyNumberLiteralsSupported], typeAnnotSort := none }
  else
    match rationalValue value sub with
    | none => { diagnostics := [.invalidNumberLiteral], typeAnnotSort := none }
    | some v =>
      if v.den ≠ 1 then { diagnostics := [.onlyIntegersSupported], typeAnnotSort := none }
      else { diagnostics := [], typeAnnotSort := some [integerClass] }

/-! ## `visit(TypeDefinition)` (lines 646-683) -/

/-- What `visit(TypeDefinition)` produces: the node's `type` annotation and
the member-table entry created for the defined constructor (the source
`emplace`s an empty map for the constructor and, when an underlying type was
given, inserts `abs` and then `rep`). -/
structure TypeDefVisitResult where
  typeAnnot : Ty
  memberEntries : List (String × Ty)

/-- `visit(TypeDefinition)` (lines 646-683).  `ctor` is the constructor the
registration pass attached to the node, `numArguments` the size of its
argument parameter list, `freshBase` the next fresh-variable id, and
`underlying` the annotation of the visited `typeExpression` when present.  One
fresh type variable is made per argument; the annotation is the type constant
itself for an empty argument list and otherwise the type-function from the
argument tuple to the defined type; with an underlying type, exactly the
members `abs : underlying -> defined` and `rep : defined -> underlying` are
inserted. -/
def visitTypeDefinition (ctor : TypeConstructorRef) (numArguments : Nat) (freshBase : Nat)
    (underlying : Option Ty) : TypeDefVisitResult :=
  let arguments := (List.range numArguments).map (fun i => Ty.tvar (freshBase + i))
  let definedType := Ty.constant ctor arguments
  { typeAnnot :=
      if arguments.isEmpty then definedType
      else typeFunctionType (tupleType arguments) definedType
    memberEntries :=
      match underlying with
      | some u => [("abs", functionType u definedType), ("rep", functionType definedType u)]
      | none => [] }

/-! ## `analyze` (lines 55-59) -/

/-- `ErrorReporter::hasErrors` over the diagnostics reported so far. -/
def hasErrors (reported : List Diag) : Bool := !reported.isEmpty

/-- `TypeInference::analyze` (lines 55-59): visit the source unit, then return
the negation of `hasErrors`.  The parameter is the reporter's content after
the visit. -/
def analyze (reportedDuringVisit : List Diag) : Bool := !hasErrors reportedDuringVisit

/-! ## `endVisit(MemberAccess)` (lines 619-644) -/

/-- `annotation().members.at(constructor)` modelled as an association-list
lookup: `none` corresponds to `std::map::at` throwing `std::out_of_range`. -/
def lookupEntry (members : List (TypeConstructorRef × List (String × Ty)))
    (c : TypeConstructorRef) : Option (List (String × Ty)) :=
  (members.find? (fun p => p.1 == c)).map (fun p => p.2)

/-- Outcome of `endVisit(MemberAccess)`: `throwNoEntry` is the unguarded
`members.at(constructor)` throwing (no diagnostic, no annotation);
`memberNotFoundError` and `unsupportedExpressionError` report a type error and
annotate with a fresh variable; `found` annotates with a freshened copy of the
member's type. -/
inductive MemberAccessResult where
  | throwNoEntry
  | memberNotFoundError
  | unsupportedExpressionError
  | found (t : Ty)

/-- `endVisit(MemberAccess)` (lines 619-644).  `freshFn` stands for
`m_env->fresh`; `exprType` is the (unresolved) annotation of the member-access
expression. -/
def endVisitMemberAccess (freshFn : Ty → Ty)
    (members : List (TypeConstructorRef × List (String × Ty)))
    (exprType : Ty) (memberName : String) : MemberAccessResult :=
  match exprType with
  | .constant ctor _ =>
    match lookupEntry members ctor with
    | none => .throwNoEntry
    | some tbl =>
      match tbl.find? (fun p => p.1 == memberName) with
      | some p => .found (freshFn p.2)
      | none => .memberNotFoundError
  | .tvar _ => .unsupportedExpressionError

/-! ## Error-path annotations outside `visit(Literal)` (claim C10) -/

/-- The resolution of a type-class instantiation's class name (lines
535-557): an `IdentifierPath` whose referent is a `TypeClassDefinition`, an
`IdentifierPath` with some other referent, or a builtin-class token that is or
is not registered. -/
inductive ClassNameResolution where
  | typeClassDecl (c : TypeClassId)
  | otherDecl
  | builtinToken (registered : Option TypeClassId)

/-- The head of `visit(TypeClassInstantiation)` (lines 527-559): early-return
when annotated; otherwise the annotation is set to the void type before the
class name is resolved, so the error returns at lines 546-547 and 554-555
leave the node annotated with void (not with a fresh type variable).  Returns
the diagnostics reported in this prefix and the resulting annotation. -/
def visitTypeClassInstantiationHead (existing : Option Ty) (res : ClassNameResolution) :
    List Diag × Option Ty :=
  match existing with
  | some t => ([], some t)
  | none =>
    match res with
    | .otherDecl => ([.expectedTypeClassInstantiation], some voidType)
    | .builtinToken none => ([.invalidTypeClassName], some voidType)
    | .typeClassDecl _ => ([], some voidType)
    | .builtinToken (some _) => ([], some voidType)

/-- `endVisit(Assignment)` (lines 350-365) after the absence assert:  outside
term context it reports and annotates with a fresh type variable; in term
context it annotates with the resolved left-hand type (`resolvedLeft` stands
for `m_env->resolve(leftType)`; the unification side effect is out of scope
here). -/
def endVisitAssignmentType (ctx : ExpressionContext) (freshVar resolvedLeft : Ty) :
    List Diag × Ty :=
  match ctx with
  | .term => ([], resolvedLeft)
  | .type => ([.assignmentOutsideTermContext], freshVar)
  | .sort => ([.assignmentOutsideTermContext], freshVar)

/-! ## Bridging lemmas

The `mkRat`-computed arithmetic used by the model is the field arithmetic of
`Rat`. -/

theorem ratMul_eq (a b : Rat) : ratMul a b = a * b := by
  have ha : ((a.den : Rat)) ≠ 0 := Nat.cast_ne_zero.mpr a.den_nz
  have hb : ((b.den : Rat)) ≠ 0 := Nat.cast_ne_zero.mpr b.den_nz
  rw [ratMul, Rat.mkRat_eq_divInt, Rat.divInt_eq_div]
  push_cast
  rw [← div_mul_div_comm, Rat.num_div_den, Rat.num_div_den]

theorem ratAdd_eq (a b : Rat) : ratAdd a b = a + b := by
  have ha : ((a.den : Rat)) ≠ 0 := Nat.cast_ne_zero.mpr a.den_nz
  have hb : ((b.den : Rat)) ≠ 0 := Nat.cast_ne_zero.mpr b.den_nz
  rw [ratAdd, Rat.mkRat_eq_divInt, Rat.divInt_eq_div]
  conv_rhs => rw [← Rat.num_div_den a, ← Rat.num_div_den b, div_add_div _ _ ha hb]
  push_cast
  ring_nf

theorem ratDivNat_eq (a : Rat) (p : Nat) (hp : p ≠ 0) : ratDivNat a p = a / p := by
  have hp2 : ((p : Rat)) ≠ 0 := Nat.cast_ne_zero.mpr hp
  rw [ratDivNat, Rat.mkRat_eq_divInt, Rat.divInt_eq_div]
  conv_rhs => rw [← Rat.num_div_den a]
  push_cast
  rw [div_div]

theorem fitsPrecisionBase10_bound (m e : Nat) :
    fitsPrecisionBase10 m e = decide (m * 10 ^ e < 2 ^ 4096) := by
  have h : (1044388881413152506691752710716624382579964249047383780384233483283953907971557456848826811934997558340890106714439262837987573438185793607263236087851365277945956976543709998340361590134383718314428070011855946226376318839397712745672334684344586617496807908705803704071284048740118609114467977783598029006686938976881787785946905630190260940599579453432823469303026696443059025015972399867714215541693835559885291486318237914434496734087811872639496475100189041349008417061675093668333850551032972088269550769983616369411933015213796825837188091833656751221318492846368125550225998300412344784862595674492194617023806505913245610825731835380087608622102834270197698202313169017678006675195485079921636419370285375124784014907159135459982790513399611551794271106831134090584272884279791554849782954323534517065223269061394905987693002122963395687782878948440616007412945674919823050571642377154816321380631045902916136926708342856440730447899971901781465763473223850267253059899795996090799469201774624817718449867455659250178329070473119433165550807568221846571746373296884912819520317457002440926616910874148385078411929804522981857338977648103126085903001302413467189726673216491511131602920781738033436090243804708340403154190336 : Nat) = 2 ^ 4096 := by norm_num
  simp only [fitsPrecisionBase10, h]

/-! ## Claim C1: pending-resolution handling in `unify` -/

theorem qualifiesB_sortMismatch (insts : TypeClassId → TypeConstructorRef → Option InstantiationId)
    (ctor : TypeConstructorRef) (args : List Ty) (s : TSort) :
    qualifiesB insts (.sortMismatch (.constant ctor args) s) = true ↔
      ∀ c ∈ s.classes, (insts c ctor).isSome := by
  simp [qualifiesB, List.all_eq_true]

theorem hitsActiveB_sortMismatch (insts : TypeClassId → TypeConstructorRef → Option InstantiationId)
    (active : List InstantiationId) (ctor : TypeConstructorRef) (args : List Ty) (s : TSort) :
    hitsActiveB insts active (.sortMismatch (.constant ctor args) s) = true ↔
      ∃ c ∈ s.classes, ∃ i, insts c ctor = some i ∧ i ∈ active := by
  simp only [hitsActiveB, List.any_eq_true]
  constructor
  · rintro ⟨c, hc, hg⟩
    cases hio : insts c ctor with
    | none => rw [hio] at hg; cases hg
    | some i =>
      rw [hio] at hg
      exact ⟨c, hc, i, hio, of_decide_eq_true hg⟩
  · rintro ⟨c, hc, i, hi, hmem⟩
    refine ⟨c, hc, ?_⟩
    rw [hi]
    exact decide_eq_true hmem

theorem scanSortClasses_no_hit (insts : TypeClassId → TypeConstructorRef → Option InstantiationId)
    (active : List InstantiationId) (ctor : TypeConstructorRef)
    (cs : List TypeClassId) (acc : List InstantiationId)
    (hall : ∀ c ∈ cs, (insts c ctor).isSome)
    (hmiss : ∀ c ∈ cs, ∀ i, insts c ctor = some i → i ∉ active) :
    scanSortClasses insts active ctor cs acc =
      .collected (acc ++ cs.filterMap (fun c => insts c ctor)) := by
  induction cs generalizing acc with
  | nil => simp [scanSortClasses]
  | cons c cs ih =>
    obtain ⟨i, hi⟩ := Option.isSome_iff_exists.mp (hall c (List.mem_cons_self c cs))
    simp only [scanSortClasses, hi]
    rw [if_neg (hmiss c (List.mem_cons_self c cs) i hi)]
    rw [ih (acc ++ [i]) (fun c hc => hall c (List.mem_cons_of_mem _ hc))
      (fun c hc => hmiss c (List.mem_cons_of_mem _ hc))]
    simp [List.filterMap_cons, hi]

theorem scanSortClasses_hit (insts : TypeClassId → TypeConstructorRef → Option InstantiationId)
    (active : List InstantiationId) (ctor : TypeConstructorRef)
    (cs : List TypeClassId) (acc : List InstantiationId)
    (hall : ∀ c ∈ cs, (insts c ctor).isSome)
    (hhit : ∃ c ∈ cs, ∃ i, insts c ctor = some i ∧ i ∈ active) :
    scanSortClasses insts active ctor cs acc = .recursionDetected := by
  induction cs generalizing acc with
  | nil => simp at hhit
  | cons c cs ih =>
    obtain ⟨i, hi⟩ := Option.isSome_iff_exists.mp (hall c (List.mem_cons_self c cs))
    by_cases hmem : i ∈ active
    · simp only [scanSortClasses, hi]
      rw [if_pos hmem]
    · simp only [scanSortClasses, hi]
      rw [if_neg hmem]
      apply ih (acc ++ [i]) (fun c hc => hall c (List.mem_cons_of_mem _ hc))
      obtain ⟨c2, hc2, i2, hi2, hmem2⟩ := hhit
      rcases List.mem_cons.mp hc2 with rfl | hc2
      · rw [hi] at hi2
        cases hi2
        exact absurd hmem2 hmem
      · exact ⟨c2, hc2, i2, hi2, hmem2⟩

theorem collectMissing_cons (insts : TypeClassId → TypeConstructorRef → Option InstantiationId)
    (f : UFail) (fs : List UFail) :
    collectMissing insts (f :: fs) = missingOf insts f ++ collectMissing insts fs := rfl

theorem scanFailures_no_hit (insts : TypeClassId → TypeConstructorRef → Option InstantiationId)
    (active : List InstantiationId) (fs : List UFail) (acc : List InstantiationId)
    (hq : ∀ f ∈ fs, qualifiesB insts f = true)
    (hnohit : ∀ f ∈ fs, hitsActiveB insts active f = false) :
    scanFailures insts active fs acc = .collected (acc ++ collectMissing insts fs) := by
  induction fs generalizing acc with
  | nil => simp [scanFailures, collectMissing]
  | cons f fs ih =>
    have hqf := hq f (List.mem_cons_self f fs)
    have hnf := hnohit f (List.mem_cons_self f fs)
    cases f with
    | typeMismatch a b => simp [qualifiesB] at hqf
    | recursiveUnification v t => simp [qualifiesB] at hqf
    | sortMismatch t s =>
      cases t with
      | tvar v => simp [qualifiesB] at hqf
      | constant ctor args =>
        have hall : ∀ c ∈ s.classes, (insts c ctor).isSome :=
          (qualifiesB_sortMismatch insts ctor args s).mp hqf
        have hmiss : ∀ c ∈ s.classes, ∀ i, insts c ctor = some i → i ∉ active := by
          intro c hc i hi hmem
          have := (hitsActiveB_sortMismatch insts active ctor args s).mpr ⟨c, hc, i, hi, hmem⟩
          rw [hnf] at this
          cases this
        rw [scanFailures]
        rw [scanSortClasses_no_hit insts active ctor s.classes acc hall hmiss]
        show scanFailures insts active fs (acc ++ s.classes.filterMap (fun c => insts c ctor)) = _
        rw [ih (acc ++ s.classes.filterMap (fun c => insts c ctor))
          (fun f hf => hq f (List.mem_cons_of_mem _ hf))
          (fun f hf => hnohit f (List.mem_cons_of_mem _ hf))]
        rw [collectMissing_cons]
        simp [missingOf, List.append_assoc]

theorem scanFailures_hit (insts : TypeClassId → TypeConstructorRef → Option InstantiationId)
    (active : List InstantiationId) (fs : List UFail) (acc : List InstantiationId)
    (hq : ∀ f ∈ fs, qualifiesB insts f = true)
    (hhit : ∃ f ∈ fs, hitsActiveB insts active f = true) :
    scanFailures insts active fs acc = .recursionDetected := by
  induction fs generalizing acc with
  | nil => simp at hhit
  | cons f fs ih =>
    have hqf := hq f (List.mem_cons_self f fs)
    cases f with
    | typeMismatch a b => simp [qualifiesB] at hqf
    | recursiveUnification v t => simp [qualifiesB] at hqf
    | sortMismatch t s =>
      cases t with
      | tvar v => simp [qualifiesB] at hqf
      | constant ctor args =>
        have hall : ∀ c ∈ s.classes, (insts c ctor).isSome :=
          (qualifiesB_sortMismatch insts ctor args s).mp hqf
        by_cases hhead : ∃ c ∈ s.classes, ∃ i, insts c ctor = some i ∧ i ∈ active
        · rw [scanFailures, scanSortClasses_hit insts active ctor s.classes acc hall hhead]
        · have hmiss : ∀ c ∈ s.classes, ∀ i, insts c ctor = some i → i ∉ active := by
            intro c hc i hi hmem
            exact hhead ⟨c, hc, i, hi, hmem⟩
          rw [scanFailures, scanSortClasses_no_hit insts active ctor s.classes acc hall hmiss]
          apply ih _ (fun f hf => hq f (List.mem_cons_of_mem _ hf))
          obtain ⟨f2, hf2, hhit2⟩ := hhit
          rcases List.mem_cons.mp hf2 with rfl | hf2
          · exact absurd ((hitsActiveB_sortMismatch insts active ctor args s).mp hhit2) hhead
          · exact ⟨f2, hf2, hhit2⟩

/-- C1: during `unify`, when the active-instantiations set is non-empty and
every unification failure is a `SortMismatch` on a type constant whose
required classes all have known instantiations for that constructor: if any
such instantiation is already in the active set, the walker reports the
recursion diagnostic with every active instantiation attached as a secondary
location and abandons the batch without retrying; otherwise it visits each
missing instantiation and re-runs the unification exactly once, and the
failures of that second run are the ones reported. -/
theorem unify_active_pending_resolution
    (insts : TypeClassId → TypeConstructorRef → Option InstantiationId)
    (active : List InstantiationId) (first second : List UFail)
    (hact : active ≠ [])
    (hq : ∀ f ∈ first, qualifiesB insts f = true) :
    ((∃ f ∈ first, hitsActiveB insts active f = true) →
      unifyDriver insts active first second = [.reportRecursion active]) ∧
    ((∀ f ∈ first, hitsActiveB insts active f = false) →
      unifyDriver insts active first second =
        (collectMissing insts first).map .visitInstantiation ++ second.map .report) := by
  constructor
  · intro hhit
    rw [unifyDriver, if_neg hact, scanFailures_hit insts active first [] hq hhit]
  · intro hnohit
    rw [unifyDriver, if_neg hact, scanFailures_no_hit insts active first [] hq hnohit]
    simp

/-- Witness for C1: one sort-mismatch failure on constructor 7 requiring class
0, whose registered instantiation 42 is in the active set; the driver emits
exactly the recursion report carrying the active set. -/
theorem unify_active_pending_resolution_witness :
    unifyDriver (fun c t => if c = 0 ∧ t = TypeConstructorRef.user 7 then some 42 else none)
      [42] [UFail.sortMismatch (Ty.constant (TypeConstructorRef.user 7) []) ⟨[0]⟩] [] =
      [UEvent.reportRecursion [42]] :=
  (unify_active_pending_resolution
    (fun c t => if c = 0 ∧ t = TypeConstructorRef.user 7 then some 42 else none)
    [42] [UFail.sortMismatch (Ty.constant (TypeConstructorRef.user 7) []) ⟨[0]⟩] []
    (by decide) (by decide)).1 (by decide)

/-! ## Claim C2: re-running the walker on annotated nodes -/

/-- C2 counterexample: the claim states that each visit either early-returns
when the type annotation is present or leaves the existing type unchanged; but
re-visiting an already-annotated accepted Literal node stores a new fresh type
variable, changing the annotation (here from variable 0 to variable 1). -/
theorem literal_revisit_overwrites :
    literalVisitTypeEffect (some (Ty.tvar 0)) (some (Ty.tvar 1)) ≠ some (some (Ty.tvar 0)) := by
  simp [literalVisitTypeEffect]

/-- C2 (amended): only the declaration-level visits (FunctionDefinition,
TypeClassDefinition, TypeClassInstantiation, TypeDefinition) early-return on a
present `type` annotation, leaving it unchanged; the other annotating visits
assert that the annotation is absent, so re-visiting an annotated node aborts
the pass by assertion failure — except `visit(Literal)` (and the
non-term-context `visit(MemberAccess)` error path), which overwrite the
annotation with a fresh variable. -/
theorem annotated_revisit_behaviour (t c : Ty) :
    functionDefinitionVisitType (some t) c = some (some t) ∧
    typeClassDefinitionVisitType (some t) c = some (some t) ∧
    typeClassInstantiationVisitType (some t) c = some (some t) ∧
    typeDefinitionVisitType (some t) c = some (some t) ∧
    parameterListEndVisitType (some t) c = none ∧
    elementaryTypeNameVisitType (some t) c = none ∧
    binaryOperationVisitType (some t) c = none ∧
    variableDeclarationVisitType (some t) c = none ∧
    assignmentEndVisitType (some t) c = none ∧
    identifierVisitType (some t) c = none ∧
    tupleExpressionVisitType (some t) c = none ∧
    identifierPathVisitType (some t) c = none ∧
    memberAccessEndVisitType (some t) c = none ∧
    functionCallEndVisitType (some t) c = none ∧
    literalVisitTypeEffect (some t) (some c) = some (some c) ∧
    memberAccessVisitNonTermType (some t) c = some (some c) :=
  ⟨rfl, rfl, rfl, rfl, rfl, rfl, rfl, rfl, rfl, rfl, rfl, rfl, rfl, rfl, rfl, rfl⟩

/-! ## Claim C3: the fatal diagnostics -/

/-- C3 counterexample: the diagnostic "Function in type class may only depend
on the type class variable." (line 135) is raised through `fatalTypeError`,
yet it is none of the three distinguished variants (unregistered type,
unexpected referent, duplicate class method). -/
theorem class_function_fatal_not_distinguished :
    isFatal .classFunctionDependsOnMoreThanClassVariable = true ∧
    Diag.classFunctionDependsOnMoreThanClassVariable ∉
      [Diag.unregisteredType, Diag.unexpectedReferentTerm, Diag.unexpectedReferentType,
       Diag.classFunctionDeclaredMultipleTimes] := by
  exact ⟨rfl, by decide⟩

/-- C3 (amended): the failures that abort the pass through a fatal diagnostic
are exactly seven sites: the class-method free-variable violation, the
duplicate class method, the `declareTypeClass` error, the unexpected referent
(term and type contexts), the unregistered type, and the unsupported AST node;
every other diagnostic site is non-fatal and the walker carries on. -/
theorem fatal_diagnostics_exactly (d : Diag) :
    isFatal d = true ↔
      d ∈ [Diag.classFunctionDependsOnMoreThanClassVariable,
           Diag.classFunctionDeclaredMultipleTimes,
           Diag.typeClassDeclarationError,
           Diag.unexpectedReferentTerm,
           Diag.unexpectedReferentType,
           Diag.unregisteredType,
           Diag.unsupportedASTNode] := by
  cases d <;> decide

/-! ## Claim C4: `visit(Literal)` acceptance and rejection -/

/-- C4: non-number tokens are rejected; a parsed value whose denominator is
not 1 after sub-denomination and scientific-notation processing is rejected
with the "Only integers are supported." type error; an unparsable value is
rejected as an invalid number literal; and an accepted literal's annotation is
a fresh type variable whose sort is exactly the singleton set containing the
built-in Integer class. -/
theorem visitLiteral_checks (ic : TypeClassId) (tok : Token) (value : String)
    (sub : SubDenomination) :
    (tok ≠ .number →
      visitLiteral ic tok value sub =
        { diagnostics := [.onlyNumberLiteralsSupported], typeAnnotSort := none }) ∧
    (rationalValue value sub = none →
      visitLiteral ic .number value sub =
        { diagnostics := [.invalidNumberLiteral], typeAnnotSort := none }) ∧
    (∀ q, rationalValue value sub = some q → q.den ≠ 1 →
      visitLiteral ic .number value sub =
        { diagnostics := [.onlyIntegersSupported], typeAnnotSort := none }) ∧
    (∀ q, rationalValue value sub = some q → q.den = 1 →
      visitLiteral ic .number value sub =
        { diagnostics := [], typeAnnotSort := some [ic] }) := by
  refine ⟨fun htok => ?_, fun hrv => ?_, fun q hrv hden => ?_, fun q hrv hden => ?_⟩
  · rw [visitLiteral, if_pos htok]
  · rw [visitLiteral, if_neg (by simp), hrv]
  · rw [visitLiteral, if_neg (by simp), hrv]
    simp only []
    rw [if_pos hden]
  · rw [visitLiteral, if_neg (by simp), hrv]
    simp only []
    rw [if_neg (by simp [hden])]

/-- Witness for C4: the literals `1.5` and `.5` parse with denominator 2 and
are rejected with "Only integers are supported."; the literals `7` and `1.0`
(whose all-zero fractional part is boost `bigint("")`, i.e. 0) are accepted
with a fresh variable of sort containing exactly the Integer class (here
class 0). -/
theorem visitLiteral_checks_witness :
    visitLiteral 0 .number "1.5" .none =
      { diagnostics := [.onlyIntegersSupported], typeAnnotSort := none } ∧
    visitLiteral 0 .number ".5" .none =
      { diagnostics := [.onlyIntegersSupported], typeAnnotSort := none } ∧
    visitLiteral 0 .number "7" .none =
      { diagnostics := [], typeAnnotSort := some [0] } ∧
    visitLiteral 0 .number "1.0" .none =
      { diagnostics := [], typeAnnotSort := some [0] } :=
  ⟨(visitLiteral_checks 0 .number "1.5" .none).2.2.1 (mkRat 3 2) (by decide) (by decide),
   (visitLiteral_checks 0 .number ".5" .none).2.2.1 (mkRat 1 2) (by decide) (by decide),
   (visitLiteral_checks 0 .number "7" .none).2.2.2 7 (by decide) (by decide),
   (visitLiteral_checks 0 .number "1.0" .none).2.2.2 1 (by decide) (by decide)⟩

/-! ## Claim C5: sub-denomination multipliers -/

/-- C5: numeric literal parsing multiplies the parsed value by the
sub-denomination factor, exactly: wei and second by 1, gwei by 10^9, ether by
10^18, minute by 60, hour by 3600, day by 86400, week by 604800, year by
31536000; and the literal `1 ether` evaluates to exactly 10^18. -/
theorem subDenomination_multipliers :
    (∀ v : Rat,
      applySubDenomination v .wei = v * 1 ∧
      applySubDenomination v .second = v * 1 ∧
      applySubDenomination v .gwei = v * 10 ^ 9 ∧
      applySubDenomination v .ether = v * 10 ^ 18 ∧
      applySubDenomination v .minute = v * 60 ∧
      applySubDenomination v .hour = v * 3600 ∧
      applySubDenomination v .day = v * 86400 ∧
      applySubDenomination v .week = v * 604800 ∧
      applySubDenomination v .year = v * 31536000) ∧
    rationalValue "1" .ether = some (10 ^ 18) := by
  constructor
  · intro v
    refine ⟨(mul_one v).symm, (mul_one v).symm, ?_, ?_, ?_, ?_, ?_, ?_, ?_⟩ <;>
      · show ratMul v _ = _
        rw [ratMul_eq]
        norm_num
  · decide

/-! ## Claim C6: `visit(TypeDefinition)` members and annotation -/

/-- C6: for every TypeDefinition with an underlying type, visiting it adds
exactly two members to the defined constructor's member table — `abs` of
function type underlying → defined and `rep` of function type defined →
underlying — and the node's annotation is a type-function when the definition
takes arguments and the type constant itself otherwise. -/
theorem visitTypeDefinition_abs_rep (ctor : TypeConstructorRef) (numArguments freshBase : Nat)
    (u : Ty) :
    ∃ defined : Ty,
      (∃ args : List Ty, defined = Ty.constant ctor args ∧ args.length = numArguments) ∧
      (visitTypeDefinition ctor numArguments freshBase (some u)).memberEntries =
        [("abs", functionType u defined), ("rep", functionType defined u)] ∧
      (numArguments = 0 →
        (visitTypeDefinition ctor numArguments freshBase (some u)).typeAnnot = defined) ∧
      (numArguments ≠ 0 →
        ∃ argTuple,
          (visitTypeDefinition ctor numArguments freshBase (some u)).typeAnnot =
            typeFunctionType argTuple defined) := by
  refine ⟨Ty.constant ctor ((List.range numArguments).map (fun i => Ty.tvar (freshBase + i))),
    ⟨_, rfl, by simp⟩, rfl, fun h0 => ?_, fun hne => ?_⟩
  · subst h0
    rfl
  · refine ⟨tupleType ((List.range numArguments).map (fun i => Ty.tvar (freshBase + i))), ?_⟩
    rw [visitTypeDefinition]
    simp only []
    rw [if_neg (by simp [List.isEmpty_iff, hne])]

/-- Witness for C6: `type T = word` (no arguments): the member table entry for
`T` is exactly `abs : word → T` and `rep : T → word`, and the annotation is
the type constant `T` itself. -/
theorem visitTypeDefinition_abs_rep_witness :
    (visitTypeDefinition (TypeConstructorRef.user 3) 0 0 (some wordType)).memberEntries =
      [("abs", functionType wordType (Ty.constant (TypeConstructorRef.user 3) [])),
       ("rep", functionType (Ty.constant (TypeConstructorRef.user 3) []) wordType)] ∧
    (visitTypeDefinition (TypeConstructorRef.user 3) 0 0 (some wordType)).typeAnnot =
      Ty.constant (TypeConstructorRef.user 3) [] := by
  obtain ⟨defined, ⟨args, hdef, hlen⟩, hmem, h0, -⟩ :=
    visitTypeDefinition_abs_rep (TypeConstructorRef.user 3) 0 0 wordType
  have hargs : args = [] := List.eq_nil_of_length_eq_zero hlen
  subst hargs
  subst hdef
  exact ⟨hmem, h0 rfl⟩

/-! ## Claim C7: the `analyze` return value -/

/-- C7: `analyze` returns false exactly when an error was reported to the
shared error reporter during the pass, and true otherwise; it returns rather
than exiting the process (a fatal diagnostic propagates as an exception, which
is also not a process exit). -/
theorem analyze_success_iff_no_errors (reported : List Diag) :
    (analyze reported = true ↔ reported = []) ∧
    (analyze reported = false ↔ reported ≠ []) := by
  cases reported <;> simp [analyze, hasErrors]

/-! ## Claim C8: `endVisit(MemberAccess)` with a missing member table -/

/-- C8: for a term-context member access whose expression's type is a type
constant, if the constant's constructor has no entry at all in the global
members table the lookup is an unguarded `map::at` that throws (no diagnostic
is produced); the "Member not found." type error is reachable exactly when the
constructor has a members-table entry that merely lacks the requested member
name. -/
theorem memberAccess_missing_entry_throws (freshFn : Ty → Ty)
    (members : List (TypeConstructorRef × List (String × Ty)))
    (ctor : TypeConstructorRef) (args : List Ty) (name : String) :
    (lookupEntry members ctor = none →
      endVisitMemberAccess freshFn members (Ty.constant ctor args) name = .throwNoEntry) ∧
    (endVisitMemberAccess freshFn members (Ty.constant ctor args) name = .memberNotFoundError ↔
      ∃ tbl, lookupEntry members ctor = some tbl ∧
        tbl.find? (fun p => p.1 == name) = none) := by
  have harm : ∀ tbl, lookupEntry members ctor = some tbl →
      endVisitMemberAccess freshFn members (Ty.constant ctor args) name =
        (match tbl.find? (fun p => p.1 == name) with
         | some p => MemberAccessResult.found (freshFn p.2)
         | none => MemberAccessResult.memberNotFoundError) := by
    intro tbl hentry
    rw [endVisitMemberAccess, hentry]
  constructor
  · intro hnone
    rw [endVisitMemberAccess, hnone]
  · constructor
    · intro h
      cases hentry : lookupEntry members ctor with
      | none => rw [endVisitMemberAccess, hentry] at h; cases h
      | some tbl =>
        refine ⟨tbl, rfl, ?_⟩
        rw [harm tbl hentry] at h
        cases hfind : tbl.find? (fun p => p.1 == name) with
        | none => rfl
        | some p => rw [hfind] at h; cases h
    · rintro ⟨tbl, hentry, hfind⟩
      rw [harm tbl hentry, hfind]

/-- Witness for C8: with an empty members table, a member access on the type
constant of user constructor 1 throws (no diagnostic). -/
theorem memberAccess_missing_entry_throws_witness :
    endVisitMemberAccess id [] (Ty.constant (TypeConstructorRef.user 1) []) "abs" =
      MemberAccessResult.throwNoEntry :=
  (memberAccess_missing_entry_throws id [] (TypeConstructorRef.user 1) [] "abs").1 rfl

/-! ## Claim C9: zero-mantissa scientific literals -/

/-- C10 counterexample: the claim states that the walker's error paths other
than the Literal rejections annotate the node with a fresh type variable; but
the `visit(TypeClassInstantiation)` error return for an unresolved class name
reports "Expected type class." and leaves the node annotated with the void
type constant, which is not a type variable. -/
theorem instantiation_error_annotates_void :
    visitTypeClassInstantiationHead none .otherDecl =
      ([Diag.expectedTypeClassInstantiation], some voidType) ∧
    isTypeVariable voidType = false :=
  ⟨rfl, rfl⟩

/-- C10 (amended): when a Literal node is rejected (non-number token,
unparsable value, or non-integer value), `visit(Literal)` reports the error
and returns with the node's `type` annotation still empty; many other error
paths (for example an assignment outside term context) annotate the node with
a fresh type variable as a placeholder, though not all of them do. -/
theorem literal_reject_leaves_annot_empty (ic : TypeClassId) (tok : Token) (value : String)
    (sub : SubDenomination) :
    ((visitLiteral ic tok value sub).diagnostics ≠ [] →
      (visitLiteral ic tok value sub).typeAnnotSort = none) ∧
    (∀ freshVar resolvedLeft : Ty,
      endVisitAssignmentType .type freshVar resolvedLeft =
        ([.assignmentOutsideTermContext], freshVar)) := by
  constructor
  · intro hne
    by_cases htok : tok = Token.number
    · subst htok
      rw [visitLiteral, if_neg (by simp)] at hne ⊢
      cases hrv : rationalValue value sub with
      | none => rfl
      | some v =>
        rw [hrv] at hne
        by_cases hden : v.den ≠ 1
        · simp [hden]
        · simp [hden] at hne
    · rw [visitLiteral, if_pos htok]
  · intro freshVar resolvedLeft
    rfl

/-- Witness for C10: a literal with a non-number token is rejected and its
type annotation stays empty. -/
theorem literal_reject_leaves_annot_empty_witness :
    (visitLiteral 0 .other "x" .none).typeAnnotSort = none :=
  (literal_reject_leaves_annot_empty 0 .other "x" .none).1 (by decide)

end TypeInference
